import Mathlib

/-!
# cargo-scout: verification of the specification against the sources

Shallow embedding of the cargo-scout repository:
* `Scout` — the binary crate (src/src/clippy.rs, src/src/main.rs);
* `Lib` — the library crate (src/cargo-scout-lib/src/linter/clippy.rs and
  rustfmt.rs), with the `linter` module's `Lint`/`Location` types
  reconstructed from their uses in those two files;
* `Engine`, `Diff` — the IntersectionEngine and DiffExtractor, whose source
  files (intersections.rs, git.rs) are not among the provided sources and are
  therefore modelled from the spec.

External JSON decoding (serde_json) is abstracted as an explicit `parse`
function; an input text is given as its list of lines where the source calls
`str::lines`. Machine integers (`u32`, `usize`) are modelled as `Nat` and
`i32` as `Int`; no claim involves overflow.
-/

/-- Rust `str::starts_with(c: char)`: the first character of `s` is `c`. -/
def startsWithChar (s : String) (c : Char) : Bool :=
  match s.data with
  | [] => false
  | x :: _ => x == c

/-- Split a character list at every occurrence of `c` (the separators are
dropped; `n` separators yield `n + 1` pieces, possibly empty). -/
def splitOnChar (c : Char) : List Char → List (List Char)
  | [] => [[]]
  | x :: xs =>
    let rest := splitOnChar c xs
    if x == c then [] :: rest
    else
      match rest with
      | [] => [[x]]
      | r :: rs => (x :: r) :: rs

/-- Numeric value of a decimal digit character. -/
def digitVal (c : Char) : Nat := c.toNat - '0'.toNat

/-- Parse a non-empty all-digit character list as a decimal `Nat`. -/
def charsToNat (cs : List Char) : Option Nat :=
  if cs.isEmpty then none
  else if cs.all Char.isDigit then
    some (cs.foldl (fun acc c => acc * 10 + digitVal c) 0)
  else none

/-- Rust `str::lines` on a character list: split on a newline, strip one
trailing carriage return per line, and drop the final empty piece produced
by a trailing newline. -/
def rustLines (s : String) : List String :=
  let ps := (splitOnChar '\n' s.data).map (fun l =>
    match l.getLast? with
    | some c => if c == '\x0d' then String.mk l.dropLast else String.mk l
    | none => String.mk l)
  match ps.getLast? with
  | some l => if l == "" then ps.dropLast else ps
  | none => ps

/-- Rust `Vec::<String>::join("\n")`. -/
def joinNewline : List String → String
  | [] => ""
  | [x] => x
  | x :: xs => x ++ "\n" ++ joinNewline xs

/-- Modelled from the spec: the error taxonomy of §7, restricted to the
variants the embedded code uses.  The crates' error.rs files are not among
the provided sources; `Command` carries captured tool output (lib
`Error::Command`), `Serde` stands for a JSON-decoding failure propagated by
the question-mark operator, and `NotClean` is the binary's
`error::Error::NotClean` returned by `main` when findings remain. -/
inductive Error where
  | Command (message : String)
  | Serde
  | NotClean
deriving DecidableEq

namespace Scout

/-- `Span` of src/src/clippy.rs: `file_name`, `line_start`, `line_end`
(`i32`, modelled as `Int`). -/
structure Span where
  file_name : String
  line_start : Int
  line_end : Int
deriving DecidableEq

/-- `Message` of src/src/clippy.rs: rendered text plus the span list. -/
structure Message where
  rendered : String
  spans : List Span
deriving DecidableEq

/-- `Lint` of src/src/clippy.rs: package id, optional source path, optional
message. -/
structure Lint where
  package_id : String
  src_path : Option String
  message : Option Message
deriving DecidableEq

/-- The json-line pipeline of `lints` (src/src/clippy.rs, lines 171-184):
keep the lines starting with a brace and decode each, dropping failures
(`filter_map(.. .ok())`). -/
def parsed (parse : String → Option Lint) (clippy_output : List String) : List Lint :=
  (clippy_output.filter (fun l => startsWithChar l '\x7b')).filterMap parse

/-- The retention test of `lints` (src/src/clippy.rs, lines 176-182): keep a
decoded `Lint` exactly when it has a message with a non-empty span list. -/
def keep (lint : Lint) : Bool :=
  match lint.message with
  | some m => !m.spans.isEmpty
  | none => false

/-- `lints` of src/src/clippy.rs (lines 171-184): decode the brace-initial
lines, drop decode failures, and keep the lints that carry a message with at
least one span.  The returned `Lint`s keep their whole span lists. -/
def lints (parse : String → Option Lint) (clippy_output : List String) : List Lint :=
  (parsed parse clippy_output).filter keep

/-- The tail of `main` (src/src/main.rs, lines 53-63): success exactly when
the filtered warning list is empty, otherwise `Err(Error::NotClean)`. -/
def main_result (warnings_caused_by_diff : List Lint) : Except Error Unit :=
  if warnings_caused_by_diff.isEmpty then Except.ok ()
  else Except.error Error.NotClean

end Scout

namespace Lib

/-- `Location` of the library's `linter` module, reconstructed from its uses
in linter/clippy.rs and linter/rustfmt.rs: a path and a two-element line
array `[start, end]`, modelled as a pair. -/
structure Location where
  path : String
  lines : Nat × Nat
deriving DecidableEq

/-- `Lint` of the library's `linter` module, reconstructed from its uses: a
rendered message and a `Location`. -/
structure Lint where
  message : String
  location : Location
deriving DecidableEq

/-- The `Clippy` configuration struct of linter/clippy.rs (lines 8-15). -/
structure Clippy where
  verbose : Bool
  no_default_features : Bool
  all_features : Bool
  features : Option String
  preview : Bool
deriving DecidableEq

end Lib

namespace Lib.Clippy

/-- `set_verbose` of linter/clippy.rs: the setter mutates `self.verbose` and
returns the builder; modelled as returning the updated value. -/
def set_verbose (c : Clippy) (verbose : Bool) : Clippy :=
  { c with verbose := verbose }

/-- `set_no_default_features` of linter/clippy.rs. -/
def set_no_default_features (c : Clippy) (no_default_features : Bool) : Clippy :=
  { c with no_default_features := no_default_features }

/-- `set_all_features` of linter/clippy.rs. -/
def set_all_features (c : Clippy) (all_features : Bool) : Clippy :=
  { c with all_features := all_features }

/-- `set_features` of linter/clippy.rs. -/
def set_features (c : Clippy) (features : Option String) : Clippy :=
  { c with features := features }

/-- `set_preview` of linter/clippy.rs. -/
def set_preview (c : Clippy) (preview : Bool) : Clippy :=
  { c with preview := preview }

/-- `Span` of linter/clippy.rs (lines 45-51): `line_start`, `line_end` are
`u32`, modelled as `Nat`. -/
structure Span where
  file_name : String
  line_start : Nat
  line_end : Nat
deriving DecidableEq

/-- `Message` of linter/clippy.rs (lines 32-43). -/
structure Message where
  rendered : String
  spans : List Span
deriving DecidableEq

/-- The crate-private deserialization struct `Lint` of linter/clippy.rs
(lines 17-30); named `LintJson` here because the Lean name `Lib.Clippy.Lint`
cannot simultaneously denote it and be reachable next to `Lib.Lint`. -/
structure LintJson where
  package_id : String
  src_path : Option String
  message : Option Message
deriving DecidableEq

/-- The message-collection pipeline of `lints` (linter/clippy.rs, lines
183-194): keep brace-initial lines, decode each, extract the optional
message from successful decodes, and keep messages with a non-empty span
list. -/
def clippy_messages (parse : String → Option LintJson) (clippy_output : List String) :
    List Message :=
  ((clippy_output.filter (fun l => startsWithChar l '\x7b')).filterMap
    (fun line =>
      match parse line with
      | some lint => lint.message
      | none => none)).filter (fun message => !message.spans.isEmpty)

/-- The `linter::Lint` pushed by the inner loop of `lints` (linter/clippy.rs,
lines 196-206) for one span `s` of a message `c`: the message's rendered
text with the span's file name and `[line_start, line_end]`. -/
def span_lint (c : Message) (s : Span) : Lib.Lint :=
  { message := c.rendered
    location := { path := s.file_name
                  lines := (s.line_start, s.line_end) } }

/-- `lints` of linter/clippy.rs (lines 180-208): for each collected message,
push one `linter::Lint` per span. -/
def lints (parse : String → Option LintJson) (clippy_output : List String) :
    List Lib.Lint :=
  (clippy_messages parse clippy_output).foldl
    (fun acc c => acc ++ c.spans.map (fun s => span_lint c s))
    []

end Lib.Clippy

namespace Lib.RustFmt

/-- `FmtMismatch` of linter/rustfmt.rs (lines 48-54): `u32` line bounds
modelled as `Nat`. -/
structure FmtMismatch where
  original_begin_line : Nat
  original_end_line : Nat
  original : String
  expected : String
deriving DecidableEq

/-- `FmtLint` of linter/rustfmt.rs (lines 42-46): a file name and its
mismatches. -/
structure FmtLint where
  name : String
  mismatches : List FmtMismatch
deriving DecidableEq

/-- `display_missmatch` of linter/rustfmt.rs (lines 80-106). -/
def display_missmatch (missmatch : FmtMismatch) (path : String) : String :=
  if missmatch.original_begin_line == missmatch.original_end_line then
    "Diff in " ++ path ++ " at line " ++ toString missmatch.original_begin_line ++
      ": \n-" ++ missmatch.original ++ "\n+" ++ missmatch.expected ++ "\n"
  else
    "Diff in " ++ path ++ " between lines " ++
      toString missmatch.original_begin_line ++ " and " ++
      toString missmatch.original_end_line ++ ": \n" ++
      joinNewline ((rustLines missmatch.original).map (fun line => "-" ++ line)) ++
      "\n" ++
      joinNewline ((rustLines missmatch.expected).map (fun line => "+" ++ line)) ++
      "\n"

/-- The `linter::Lint` built by the mapping closure of `lints`
(linter/rustfmt.rs, lines 64-73) for one mismatch of one record: the cloned
record name as path, `[original_begin_line, original_end_line]` as lines. -/
def mismatch_lint (fmt_lint : FmtLint) (missmatch : FmtMismatch) : Lib.Lint :=
  let path := fmt_lint.name
  { message := display_missmatch missmatch path
    location := { path := path
                  lines := (missmatch.original_begin_line,
                            missmatch.original_end_line) } }

/-- `lints` of linter/rustfmt.rs (lines 56-78): decode the whole output as
one JSON list of `FmtLint` records — a decode failure is propagated as an
error by the question-mark operator — then push one `linter::Lint` per
mismatch. -/
def lints (parse : String → Option (List FmtLint)) (fmt_output : String) :
    Except Error (List Lib.Lint) :=
  match parse fmt_output with
  | none => Except.error Error.Serde
  | some fmt_lints =>
    Except.ok (fmt_lints.foldl
      (fun acc fmt_lint =>
        acc ++ fmt_lint.mismatches.map (fun missmatch => mismatch_lint fmt_lint missmatch))
      [])

end Lib.RustFmt

namespace Engine

/-- Modelled from the spec: the abstract `Finding` of §3 consumed by the
IntersectionEngine (src/intersections.rs is not among the provided sources):
a path as reported by the lint tool, an inclusive line range and a message. -/
structure Finding where
  path : String
  range_start : Nat
  range_end : Nat
  message : String
deriving DecidableEq

/-- Modelled from the spec: a ChangeSet (§3) maps file paths to their
changed-line sets, here an association list of paths and line lists. -/
abbrev ChangeSet := List (String × List Nat)

/-- Path split into its `/`-delimited components, as character lists. -/
def pathComponents (p : String) : List (List Char) :=
  splitOnChar '/' p.data

/-- Modelled from the spec (§4.2 path resolution, pinned down by the §8 test
cases): a Finding path and a ChangeSet key match when they are equal, or when
one is a path-component-respecting suffix of the other spanning at least one
`/`-delimited boundary — so `src/lib.rs` matches the key
`crate-a/src/lib.rs`, while the bare file name `lib.rs` does not match the
key `other/lib.rs`. -/
def paths_match (finding_path key : String) : Bool :=
  finding_path == key ||
  ((pathComponents finding_path).isSuffixOf (pathComponents key) &&
    1 < (pathComponents finding_path).length) ||
  ((pathComponents key).isSuffixOf (pathComponents finding_path) &&
    1 < (pathComponents key).length)

/-- Modelled from the spec: resolve a Finding path to the changed-line set
of the first matching ChangeSet entry, if any. -/
def resolve_entry (cs : ChangeSet) (p : String) : Option (List Nat) :=
  (cs.find? (fun entry => paths_match p entry.1)).map (fun entry => entry.2)

/-- Modelled from the spec (§4.2 overlap test): the range `[s, e]` overlaps
the line set when some recorded line lies inside it. -/
def overlap (s e : Nat) (line_set : List Nat) : Bool :=
  line_set.any (fun l => decide (s ≤ l ∧ l ≤ e))

/-- Modelled from the spec (§3 Decision): a Finding is in-diff exactly when
its path resolves to an entry and its range overlaps that entry's line set. -/
def in_diff (cs : ChangeSet) (f : Finding) : Bool :=
  match resolve_entry cs f.path with
  | some line_set => overlap f.range_start f.range_end line_set
  | none => false

/-- Modelled from the spec (§4.2): `filter` keeps, in input order, exactly
the in-diff Findings. -/
def filter_findings (cs : ChangeSet) (findings : List Finding) : List Finding :=
  findings.filter (fun f => in_diff cs f)

end Engine

namespace Diff

/-- Modelled from the spec (§4.1, §6): parse a hunk header of the exact form
`@@ -oldStart,oldLen +newStart,newLen @@` and return `newStart`; any
deviation from the grammar fails. -/
def parse_hunk_header (line : String) : Option Nat :=
  match splitOnChar ' ' line.data with
  | [a, old_range, new_range, b] =>
    if String.mk a == "@@" && String.mk b == "@@" then
      match old_range, new_range with
      | '-' :: old_rest, '+' :: new_rest =>
        match splitOnChar ',' old_rest, splitOnChar ',' new_rest with
        | [os, ol], [ns, nl] =>
          match charsToNat os, charsToNat ol, charsToNat ns, charsToNat nl with
          | some _, some _, some new_start, some _ => some new_start
          | _, _, _, _ => none
        | _, _ => none
      | _, _ => none
    else none
  | _ => none

/-- Modelled from the spec (§4.1): one hunk-body line updates the running
(new-line counter, recorded changed lines) state — an added line records the
counter then increments it, a context line only increments it, a removed
line touches nothing; any other line is diff metadata and is ignored. -/
def hunk_step (st : Nat × List Nat) (line : String) : Nat × List Nat :=
  match line.data with
  | '+' :: _ => (st.1 + 1, st.2 ++ [st.1])
  | ' ' :: _ => (st.1 + 1, st.2)
  | '-' :: _ => st
  | _ => st

/-- Modelled from the spec (§4.1): the changed lines a hunk body records
when the counter starts at `new_start`. -/
def hunk_changed_lines (new_start : Nat) (body : List String) : List Nat :=
  (body.foldl hunk_step (new_start, [])).2

/-- Modelled from the spec (§4.1): parse one hunk — the header initializes
the new-line counter to its `newStart`, then the body lines are scanned. -/
def parse_hunk (header : String) (body : List String) : Option (List Nat) :=
  (parse_hunk_header header).map (fun ns => hunk_changed_lines ns body)

end Diff

/-! ## Concrete values used by the counterexamples and witnesses -/

/-- A decoded binary-crate lint whose message carries two spans. -/
def c2_two_span_lint : Scout.Lint :=
  { package_id := "p"
    src_path := none
    message := some
      { rendered := "r"
        spans := [ { file_name := "a.rs", line_start := 1, line_end := 1 },
                   { file_name := "a.rs", line_start := 7, line_end := 7 } ] } }

/-- A decoder that decodes exactly the line `\x7btwo\x7d`, to the two-span lint. -/
def c2_parse (line : String) : Option Scout.Lint :=
  if line == "\x7btwo\x7d" then some c2_two_span_lint else none

/-- A decoded binary-crate lint whose message carries one span. -/
def c2w_lint : Scout.Lint :=
  { package_id := "p"
    src_path := none
    message := some
      { rendered := "r"
        spans := [ { file_name := "a.rs", line_start := 1, line_end := 2 } ] } }

/-- A decoder that decodes exactly the line `\x7bok\x7d`, to the one-span lint. -/
def c2w_parse (line : String) : Option Scout.Lint :=
  if line == "\x7bok\x7d" then some c2w_lint else none

/-- A decoder that decodes exactly the line `\x7bgood\x7d`, to the one-span lint. -/
def c3w_parse (line : String) : Option Scout.Lint :=
  if line == "\x7bgood\x7d" then some c2w_lint else none

/-- A decoded library-crate lint whose only span has `line_start > line_end`. -/
def c6_bad_json : Lib.Clippy.LintJson :=
  { package_id := "p"
    src_path := none
    message := some
      { rendered := "r"
        spans := [ { file_name := "a.rs", line_start := 5, line_end := 3 } ] } }

/-- A decoder that decodes exactly the line `\x7bbad\x7d`, to the inverted-range lint. -/
def c6_parse (line : String) : Option Lib.Clippy.LintJson :=
  if line == "\x7bbad\x7d" then some c6_bad_json else none

/-- The finding the library parser produces from the inverted-range span. -/
def c6_bad_finding : Lib.Lint :=
  { message := "r", location := { path := "a.rs", lines := (5, 3) } }

/-- A decoded library-crate lint whose only span has `line_start ≤ line_end`. -/
def c6w_json : Lib.Clippy.LintJson :=
  { package_id := "p"
    src_path := none
    message := some
      { rendered := "r"
        spans := [ { file_name := "a.rs", line_start := 10, line_end := 12 } ] } }

/-- A decoder that decodes exactly the line `\x7bok\x7d`, to the well-ranged lint. -/
def c6w_parse (line : String) : Option Lib.Clippy.LintJson :=
  if line == "\x7bok\x7d" then some c6w_json else none

/-- The finding the library parser produces from the well-ranged span. -/
def c6w_finding : Lib.Lint :=
  { message := "r", location := { path := "a.rs", lines := (10, 12) } }

/-- A concrete warning for exercising the exit-status decision. -/
def c7_lint : Scout.Lint :=
  { package_id := "p", src_path := none, message := none }

/-- A rustfmt record with one single-line mismatch. -/
def c9_fl : Lib.RustFmt.FmtLint :=
  { name := "a.rs"
    mismatches := [ { original_begin_line := 2, original_end_line := 2,
                      original := "orig", expected := "exp" } ] }

/-- A decoder that decodes exactly the output `out`, to the one-record list. -/
def c9_parse (s : String) : Option (List Lib.RustFmt.FmtLint) :=
  if s == "out" then some [c9_fl] else none

/-- The lint the rustfmt parser produces from that mismatch. -/
def c9_expected : Lib.Lint :=
  { message := "Diff in a.rs at line 2: \n-orig\n+exp\n"
    location := { path := "a.rs", lines := (2, 2) } }

/-- A concrete ChangeSet for exercising the overlap filter. -/
def c1w_cs : Engine.ChangeSet := [("crate-a/src/lib.rs", [4, 9])]

/-- A finding whose path suffix-matches the ChangeSet key and whose range
contains the changed line 4. -/
def c1w_f : Engine.Finding :=
  { path := "src/lib.rs", range_start := 3, range_end := 5, message := "m" }

/-- A finding whose bare file name matches no ChangeSet key. -/
def c4w_f : Engine.Finding :=
  { path := "lib.rs", range_start := 1, range_end := 3, message := "m" }

/-! ## Helper lemmas -/

/-- A left fold that appends `f c` for each element equals the initial list
followed by the concatenation of the `f c`. -/
theorem foldl_append_eq_flatMap {α β : Type} (f : α → List β) :
    ∀ (ms : List α) (init : List β),
      ms.foldl (fun acc c => acc ++ f c) init = init ++ ms.flatMap f
  | [], init => by simp
  | m :: ms, init => by
    simp [List.foldl_cons, foldl_append_eq_flatMap f ms, List.append_assoc]

/-- The library clippy parser, written as one finding per span of each
collected message. -/
theorem lib_clippy_lints_eq_flatMap (parse : String → Option Lib.Clippy.LintJson)
    (clippy_output : List String) :
    Lib.Clippy.lints parse clippy_output =
      (Lib.Clippy.clippy_messages parse clippy_output).flatMap
        (fun c => c.spans.map (fun s => Lib.Clippy.span_lint c s)) :=
  foldl_append_eq_flatMap _ _ []

/-- The rustfmt parser on decodable output, written as one lint per mismatch
of each record. -/
theorem rustfmt_lints_eq_flatMap (parse : String → Option (List Lib.RustFmt.FmtLint))
    (fmt_output : String) (fmt_lints : List Lib.RustFmt.FmtLint)
    (h : parse fmt_output = some fmt_lints) :
    Lib.RustFmt.lints parse fmt_output =
      Except.ok (fmt_lints.flatMap
        (fun fmt_lint => fmt_lint.mismatches.map
          (fun missmatch => Lib.RustFmt.mismatch_lint fmt_lint missmatch))) := by
  unfold Lib.RustFmt.lints
  rw [h]
  exact congrArg Except.ok (foldl_append_eq_flatMap _ _ [])

/-- Dropping one line that the decode pipeline would reject leaves the
filter-then-decode pipeline unchanged. -/
theorem filter_filterMap_skip {α : Type} (q : String → Bool) (g : String → Option α)
    (pre post : List String) (l : String) (h : q l = true → g l = none) :
    ((pre ++ l :: post).filter q).filterMap g =
      ((pre ++ post).filter q).filterMap g := by
  by_cases hq : q l = true
  · simp [List.filter_append, List.filter_cons, hq, List.filterMap_append,
      List.filterMap_cons, h hq]
  · simp [List.filter_append, List.filter_cons, hq, List.filterMap_append]

/-! ## Claims -/

/-- C1: for a Finding with range `[s, e]` whose path resolves to a
ChangeSet entry with changed-line set `S`, the IntersectionEngine retains
the Finding iff some line `L ∈ S` satisfies `s ≤ L ≤ e`; the test is the
same whether `s = e` or `s < e`. -/
theorem c1_overlap_filter (cs : Engine.ChangeSet) (f : Engine.Finding) (S : List Nat)
    (hmatch : Engine.resolve_entry cs f.path = some S) :
    f ∈ Engine.filter_findings cs [f] ↔
      ∃ L ∈ S, f.range_start ≤ L ∧ L ≤ f.range_end := by
  simp [Engine.filter_findings, Engine.in_diff, hmatch, Engine.overlap,
    List.any_eq_true]

/-- C1 witness: a finding with range `[3, 5]` matched to the line set
`{4, 9}` is retained. -/
theorem c1_overlap_filter_w : c1w_f ∈ Engine.filter_findings c1w_cs [c1w_f] :=
  (c1_overlap_filter c1w_cs c1w_f [4, 9] (by decide)).mpr (by decide)

/-- C4: `src/lib.rs` matches the key `crate-a/src/lib.rs`; `lib.rs` does not
match the key `other/lib.rs`; a Finding whose path matches no ChangeSet key
is dropped by the filter. -/
theorem c4_path_matching :
    Engine.paths_match "src/lib.rs" "crate-a/src/lib.rs" = true ∧
    Engine.paths_match "lib.rs" "other/lib.rs" = false ∧
    ∀ (cs : Engine.ChangeSet) (f : Engine.Finding),
      (∀ entry ∈ cs, Engine.paths_match f.path entry.1 = false) →
      Engine.filter_findings cs [f] = [] := by
  refine ⟨by decide, by decide, ?_⟩
  intro cs f h
  have hfind : cs.find? (fun entry => Engine.paths_match f.path entry.1) = none :=
    List.find?_eq_none.mpr (fun a ha => by simp [h a ha])
  simp [Engine.filter_findings, Engine.in_diff, Engine.resolve_entry, hfind]

/-- C4 witness: the finding on `lib.rs` is dropped against a ChangeSet whose
only key is `other/lib.rs`. -/
theorem c4_path_matching_w :
    Engine.filter_findings [("other/lib.rs", [1, 2, 3])] [c4w_f] = [] :=
  c4_path_matching.2.2 _ _ (by decide)

/-- C5: a hunk initializes the new-line counter to the header's `newStart`;
an added line records the counter then increments it, a context line only
increments it, a removed line changes nothing; the hunk
`@@ -10,3 +10,4 @@` with body ` ctx`, `-old`, `+new1`, `+new2`, ` ctx2`
yields exactly the changed lines `{11, 12}`. -/
theorem c5_hunk_parsing :
    (∀ (st : Nat × List Nat) (line : String) (rest : List Char),
        line.data = '+' :: rest →
        Diff.hunk_step st line = (st.1 + 1, st.2 ++ [st.1])) ∧
    (∀ (st : Nat × List Nat) (line : String) (rest : List Char),
        line.data = ' ' :: rest →
        Diff.hunk_step st line = (st.1 + 1, st.2)) ∧
    (∀ (st : Nat × List Nat) (line : String) (rest : List Char),
        line.data = '-' :: rest →
        Diff.hunk_step st line = st) ∧
    (∀ (header : String) (body : List String) (new_start : Nat),
        Diff.parse_hunk_header header = some new_start →
        Diff.parse_hunk header body =
          some (Diff.hunk_changed_lines new_start body)) ∧
    Diff.parse_hunk "@@ -10,3 +10,4 @@" [" ctx", "-old", "+new1", "+new2", " ctx2"] =
      some [11, 12] := by
  refine ⟨?_, ?_, ?_, ?_, by decide⟩
  · intro st line rest h
    simp [Diff.hunk_step, h]
  · intro st line rest h
    simp [Diff.hunk_step, h]
  · intro st line rest h
    simp [Diff.hunk_step, h]
  · intro header body new_start h
    simp [Diff.parse_hunk, h]

/-- C5 witness: an added line records the current counter value and
increments the counter. -/
theorem c5_hunk_parsing_w : Diff.hunk_step (10, []) "+new1" = (11, [10]) := by
  simpa using c5_hunk_parsing.1 (10, []) "+new1" "new1".data rfl

/-- C7: the run's exit status is decided solely by the filtered list —
success exactly when it is empty, `Error::NotClean` whenever it is not. -/
theorem c7_exit_status (warnings_caused_by_diff : List Scout.Lint) :
    (Scout.main_result warnings_caused_by_diff = Except.ok () ↔
      warnings_caused_by_diff = []) ∧
    (warnings_caused_by_diff ≠ [] →
      Scout.main_result warnings_caused_by_diff = Except.error Error.NotClean) := by
  refine ⟨?_, ?_⟩ <;> cases warnings_caused_by_diff <;> simp [Scout.main_result]

/-- C7 witness: one remaining warning produces the `NotClean` failure. -/
theorem c7_exit_status_w :
    Scout.main_result [c7_lint] = Except.error Error.NotClean :=
  (c7_exit_status [c7_lint]).2 (by decide)

/-- C10: each configuration setter of the `Clippy` linter sets exactly its
own field and leaves the other four fields unchanged. -/
theorem c10_setters_frame (c : Lib.Clippy) (v nd af : Bool) (fs : Option String)
    (pv : Bool) :
    ((Lib.Clippy.set_verbose c v).verbose = v ∧
     (Lib.Clippy.set_verbose c v).no_default_features = c.no_default_features ∧
     (Lib.Clippy.set_verbose c v).all_features = c.all_features ∧
     (Lib.Clippy.set_verbose c v).features = c.features ∧
     (Lib.Clippy.set_verbose c v).preview = c.preview) ∧
    ((Lib.Clippy.set_no_default_features c nd).no_default_features = nd ∧
     (Lib.Clippy.set_no_default_features c nd).verbose = c.verbose ∧
     (Lib.Clippy.set_no_default_features c nd).all_features = c.all_features ∧
     (Lib.Clippy.set_no_default_features c nd).features = c.features ∧
     (Lib.Clippy.set_no_default_features c nd).preview = c.preview) ∧
    ((Lib.Clippy.set_all_features c af).all_features = af ∧
     (Lib.Clippy.set_all_features c af).verbose = c.verbose ∧
     (Lib.Clippy.set_all_features c af).no_default_features = c.no_default_features ∧
     (Lib.Clippy.set_all_features c af).features = c.features ∧
     (Lib.Clippy.set_all_features c af).preview = c.preview) ∧
    ((Lib.Clippy.set_features c fs).features = fs ∧
     (Lib.Clippy.set_features c fs).verbose = c.verbose ∧
     (Lib.Clippy.set_features c fs).no_default_features = c.no_default_features ∧
     (Lib.Clippy.set_features c fs).all_features = c.all_features ∧
     (Lib.Clippy.set_features c fs).preview = c.preview) ∧
    ((Lib.Clippy.set_preview c pv).preview = pv ∧
     (Lib.Clippy.set_preview c pv).verbose = c.verbose ∧
     (Lib.Clippy.set_preview c pv).no_default_features = c.no_default_features ∧
     (Lib.Clippy.set_preview c pv).all_features = c.all_features ∧
     (Lib.Clippy.set_preview c pv).features = c.features) :=
  ⟨⟨rfl, rfl, rfl, rfl, rfl⟩, ⟨rfl, rfl, rfl, rfl, rfl⟩, ⟨rfl, rfl, rfl, rfl, rfl⟩,
   ⟨rfl, rfl, rfl, rfl, rfl⟩, ⟨rfl, rfl, rfl, rfl, rfl⟩⟩

/-- C2 counterexample: the binary's parser returns a message reported with
two spans as a single `Lint` that carries both spans, not as two one-span
findings. -/
theorem c2_counterexample :
    Scout.lints c2_parse ["\x7btwo\x7d"] = [c2_two_span_lint] ∧
    c2_two_span_lint.message.map (fun m => m.spans.length) = some 2 := by
  decide

/-- C2 (amended): the library parser delivers one finding per span — its
output is exactly, in input order, one `linter::Lint` per span of each
collected message, carrying that span's file name and range and the
message's rendered text — while the binary's parser delivers one `Lint` per
kept decoded record, the whole span list retained. -/
theorem c2_one_finding_per_span
    (parse : String → Option Lib.Clippy.LintJson) (clippy_output : List String)
    (bparse : String → Option Scout.Lint) (scout_output : List String) :
    Lib.Clippy.lints parse clippy_output =
      (Lib.Clippy.clippy_messages parse clippy_output).flatMap
        (fun c => c.spans.map (fun s => Lib.Clippy.span_lint c s)) ∧
    (Lib.Clippy.lints parse clippy_output).length =
      ((Lib.Clippy.clippy_messages parse clippy_output).map
        (fun c => c.spans.length)).sum ∧
    ∀ lint ∈ Scout.lints bparse scout_output,
      Scout.keep lint = true ∧ lint ∈ Scout.parsed bparse scout_output := by
  refine ⟨lib_clippy_lints_eq_flatMap parse clippy_output, ?_, ?_⟩
  · rw [lib_clippy_lints_eq_flatMap parse clippy_output]
    simp [List.length_flatMap, Function.comp_def, List.length_map]
  · intro lint hl
    have := List.mem_filter.mp hl
    exact ⟨this.2, this.1⟩

/-- C2 witness: a kept one-span lint of the binary parser is a decoded
record that passed the retention test. -/
theorem c2_one_finding_per_span_w :
    Scout.keep c2w_lint = true ∧ c2w_lint ∈ Scout.parsed c2w_parse ["\x7bok\x7d"] :=
  (c2_one_finding_per_span (fun _ => none) [] c2w_parse ["\x7bok\x7d"]).2.2
    c2w_lint (by decide)

/-- C3 counterexample: on output that does not decode as a `FmtLint` list
(the decoder returns `none`, as serde does on a malformed document), the
rustfmt parser returns an error instead of skipping. -/
theorem c3_counterexample :
    Lib.RustFmt.lints (fun _ => none) "not json" = Except.error Error.Serde := rfl

/-- C3 (amended): both clippy parsers skip a malformed or non-finding line
silently — removing such a line does not change their output, and they
always return a plain list — while the rustfmt parser decodes its whole
output as one JSON document and returns an error when that decode fails. -/
theorem c3_malformed_records
    : (∀ (parse : String → Option Scout.Lint) (pre post : List String) (l : String),
        (startsWithChar l '\x7b' = true → parse l = none) →
        Scout.lints parse (pre ++ l :: post) = Scout.lints parse (pre ++ post)) ∧
      (∀ (parse : String → Option Lib.Clippy.LintJson) (pre post : List String)
          (l : String),
        (startsWithChar l '\x7b' = true → parse l = none) →
        Lib.Clippy.lints parse (pre ++ l :: post) =
          Lib.Clippy.lints parse (pre ++ post)) ∧
      (∀ (parse : String → Option (List Lib.RustFmt.FmtLint)) (fmt_output : String),
        parse fmt_output = none →
        Lib.RustFmt.lints parse fmt_output = Except.error Error.Serde) := by
  refine ⟨?_, ?_, ?_⟩
  · intro parse pre post l h
    unfold Scout.lints Scout.parsed
    rw [filter_filterMap_skip _ _ _ _ _ h]
  · intro parse pre post l h
    unfold Lib.Clippy.lints Lib.Clippy.clippy_messages
    rw [filter_filterMap_skip _ (fun line =>
        match parse line with
        | some lint => lint.message
        | none => none) _ _ _ (fun hq => by
          show (match parse l with
            | some lint => lint.message
            | none => none) = none
          rw [h hq])]
  · intro parse fmt_output h
    unfold Lib.RustFmt.lints
    rw [h]

/-- C3 witness: an undecodable brace-initial line contributes nothing. -/
theorem c3_malformed_records_w :
    Scout.lints c3w_parse ["\x7bbad", "\x7bgood\x7d"] =
      Scout.lints c3w_parse ["\x7bgood\x7d"] :=
  c3_malformed_records.1 c3w_parse [] ["\x7bgood\x7d"] "\x7bbad" (fun _ => by decide)

/-- C6 counterexample: the library clippy parser copies an inverted span
range `[5, 3]` into a finding unchecked, so that finding violates
`start ≤ end`. -/
theorem c6_counterexample :
    Lib.Clippy.lints c6_parse ["\x7bbad\x7d"] = [c6_bad_finding] ∧
    ¬ (c6_bad_finding.location.lines.1 ≤ c6_bad_finding.location.lines.2) := by
  decide

/-- C6 (amended): the parsers copy the span and mismatch line bounds without
validation, so every produced finding satisfies `start ≤ end` exactly when
every decoded span (clippy) and mismatch (rustfmt) already satisfies it. -/
theorem c6_start_le_end :
    (∀ (parse : String → Option Lib.Clippy.LintJson) (clippy_output : List String),
        (∀ c ∈ Lib.Clippy.clippy_messages parse clippy_output,
          ∀ s ∈ c.spans, s.line_start ≤ s.line_end) →
        ∀ l ∈ Lib.Clippy.lints parse clippy_output,
          l.location.lines.1 ≤ l.location.lines.2) ∧
    (∀ (parse : String → Option (List Lib.RustFmt.FmtLint)) (fmt_output : String)
        (fmt_lints : List Lib.RustFmt.FmtLint),
        parse fmt_output = some fmt_lints →
        (∀ fl ∈ fmt_lints, ∀ mm ∈ fl.mismatches,
          mm.original_begin_line ≤ mm.original_end_line) →
        ∀ res, Lib.RustFmt.lints parse fmt_output = Except.ok res →
          ∀ l ∈ res, l.location.lines.1 ≤ l.location.lines.2) := by
  constructor
  · intro parse clippy_output h l hl
    rw [lib_clippy_lints_eq_flatMap] at hl
    simp only [List.mem_flatMap, List.mem_map] at hl
    obtain ⟨c, hc, s, hs, rfl⟩ := hl
    exact h c hc s hs
  · intro parse fmt_output fmt_lints hp h res hok l hl
    rw [rustfmt_lints_eq_flatMap parse fmt_output fmt_lints hp] at hok
    obtain rfl : res = _ := (Except.ok.inj hok).symm
    simp only [List.mem_flatMap, List.mem_map] at hl
    obtain ⟨fl, hfl, mm, hmm, rfl⟩ := hl
    exact h fl hfl mm hmm

/-- C6 witness: with a well-formed decoded span `[10, 12]` the produced
finding satisfies `start ≤ end`. -/
theorem c6_start_le_end_w :
    c6w_finding.location.lines.1 ≤ c6w_finding.location.lines.2 :=
  c6_start_le_end.1 c6w_parse ["\x7bok\x7d"] (by decide) c6w_finding (by decide)

/-- C8: every `Lint` returned by the binary clippy parser has
`message = Some m` with `m.spans` non-empty, and every finding of the
library clippy parser originates from a collected message with a non-empty
span list, carrying one of its spans. -/
theorem c8_nonempty_spans
    (bparse : String → Option Scout.Lint) (bout : List String)
    (parse : String → Option Lib.Clippy.LintJson) (out : List String) :
    (∀ lint ∈ Scout.lints bparse bout,
      ∃ m, lint.message = some m ∧ m.spans ≠ []) ∧
    (∀ l ∈ Lib.Clippy.lints parse out,
      ∃ c ∈ Lib.Clippy.clippy_messages parse out,
        c.spans ≠ [] ∧ l.message = c.rendered ∧
        ∃ s ∈ c.spans, l.location.path = s.file_name ∧
          l.location.lines = (s.line_start, s.line_end)) := by
  constructor
  · intro lint hl
    have hk : Scout.keep lint = true := (List.mem_filter.mp hl).2
    unfold Scout.keep at hk
    cases hm : lint.message with
    | none => rw [hm] at hk; exact absurd hk (by simp)
    | some m =>
      rw [hm] at hk
      refine ⟨m, rfl, ?_⟩
      simpa [List.isEmpty_iff] using hk
  · intro l hl
    rw [lib_clippy_lints_eq_flatMap] at hl
    simp only [List.mem_flatMap, List.mem_map] at hl
    obtain ⟨c, hc, s, hs, rfl⟩ := hl
    exact ⟨c, hc, List.ne_nil_of_mem hs, rfl, s, hs, rfl, rfl⟩

/-- C8 witness: the kept one-span lint indeed carries a message with a
non-empty span list. -/
theorem c8_nonempty_spans_w :
    ∃ m, c2w_lint.message = some m ∧ m.spans ≠ [] :=
  (c8_nonempty_spans c2w_parse ["\x7bok\x7d"] (fun _ => none) []).1
    c2w_lint (by decide)

/-- C9: on rustfmt output that decodes as a list of `FmtLint` records, the
parser returns exactly one `Lint` per mismatch, in input order, with path
equal to the enclosing record's name and lines equal to
`[original_begin_line, original_end_line]`. -/
theorem c9_rustfmt_per_mismatch
    (parse : String → Option (List Lib.RustFmt.FmtLint)) (fmt_output : String)
    (fmt_lints : List Lib.RustFmt.FmtLint)
    (h : parse fmt_output = some fmt_lints) :
    Lib.RustFmt.lints parse fmt_output =
      Except.ok (fmt_lints.flatMap
        (fun fmt_lint => fmt_lint.mismatches.map
          (fun missmatch => Lib.RustFmt.mismatch_lint fmt_lint missmatch))) ∧
    ∀ fl ∈ fmt_lints, ∀ mm ∈ fl.mismatches,
      (Lib.RustFmt.mismatch_lint fl mm).location.path = fl.name ∧
      (Lib.RustFmt.mismatch_lint fl mm).location.lines =
        (mm.original_begin_line, mm.original_end_line) :=
  ⟨rustfmt_lints_eq_flatMap parse fmt_output fmt_lints h,
   fun _ _ _ _ => ⟨rfl, rfl⟩⟩

/-- C9 witness: one record with one single-line mismatch yields exactly one
lint with that record's name and the mismatch's line bounds. -/
theorem c9_rustfmt_per_mismatch_w :
    Lib.RustFmt.lints c9_parse "out" = Except.ok [c9_expected] :=
  ((c9_rustfmt_per_mismatch c9_parse "out" [c9_fl] (by decide)).1).trans
    (congrArg Except.ok (by decide))
